import Mathlib

/- Shallow embedding of the dataset cache synchronization engine of the
autotune repository, translated from src/workflow/mixins.py.

The embedding covers:
  - UserIDMixin.dispatch        (identity resolution, modelled by userIdDispatch)
  - is_valid_uuid               (v4 UUID round-trip validator)
  - CacheDatasetMixin.dispatch  (workflow binding and dataset resolution,
                                 modelled by cacheDispatch and resolveDataset)
  - CacheDatasetMixin.cache_dataset (remote fetch, schema validation,
                                 identifier reconciliation, row persistence)

External collaborators are modelled as explicit parameters: the remote
repository service (Hub), the task schema registry (Env.getTaskMapping,
the get_task_mapping function of workflow/utils.py, which is not part of
the analysed sources and is therefore kept abstract), the v4 UUID
generator (Env.fresh, modelling uuid.uuid4), and a per-row persistence
oracle (Env.saveOk, modelling possible relational-store failures of
row_data.save, which the Python code lets propagate as exceptions).

The relational store is modelled by explicit lists held in Store, kept in
creation order: Django creates rows sequentially and the scan of
Workflows.objects.filter iterates them in creation order (the model files
are not part of the analysed sources; the spec states creation order).

Python string operations (str.replace, str.strip, str.split, uuid.UUID
parsing and printing) are re-implemented structurally on lists of
characters so that every definition evaluates by kernel reduction.
Leniencies of the Python int literal parser inside uuid.UUID (whitespace,
sign, 0x prefix, underscores) are not modelled; tokens reaching those
corners are rejected by the model and accepted by Python, which does not
affect any input considered here. -/

namespace Autotune

/-- Single-quote character as a string, used to build Python f-string
messages without apostrophe literals. -/
def sq : String := String.singleton (Char.ofNat 39)

/-- Opening or closing curly-brace character, the set stripped by the
Python expression hex.strip in uuid.UUID. -/
def isBraceChar (c : Char) : Bool := c == Char.ofNat 123 || c == Char.ofNat 125

/-- Decimal digit or lowercase hex letter, as printed by Python str(UUID). -/
def isLowerHex (c : Char) : Bool :=
  (48 ≤ c.toNat && c.toNat ≤ 57) || (97 ≤ c.toNat && c.toNat ≤ 102)

/-- Hex digit of either case, as accepted by the Python int parser base 16
(modulo the leniencies noted in the header comment). -/
def isHexDigitPy (c : Char) : Bool :=
  isLowerHex c || (65 ≤ c.toNat && c.toNat ≤ 70)

/-- ASCII lowercasing of one character, as Python str.lower. -/
def asciiLower (c : Char) : Char :=
  if 65 ≤ c.toNat && c.toNat ≤ 90 then Char.ofNat (c.toNat + 32) else c

/-- Fuel-driven worker for replaceAll; fuel bounds the number of steps and
is instantiated with the length of the list, which suffices because every
step consumes at least one character of the input. -/
def replaceAllFuel (pat rep : List Char) : Nat → List Char → List Char
  | 0, l => l
  | _ + 1, [] => []
  | fuel + 1, c :: t =>
    if !pat.isEmpty && pat.isPrefixOf (c :: t) then
      rep ++ replaceAllFuel pat rep fuel ((c :: t).drop pat.length)
    else
      c :: replaceAllFuel pat rep fuel t

/-- Replace every non-overlapping occurrence of pat by rep, scanning left
to right: the behaviour of Python str.replace. -/
def replaceAll (pat rep l : List Char) : List Char :=
  replaceAllFuel pat rep l.length l

/-- Python str.strip with a set of characters: drop members of the set
from both ends. -/
def stripChars (p : Char → Bool) (l : List Char) : List Char :=
  ((l.dropWhile p).reverse.dropWhile p).reverse

/-- The normalisation uuid.UUID applies to its hex argument before
parsing: drop urn: and uuid: prefixes anywhere, strip curly braces from
both ends, remove every hyphen. -/
def pyUUIDStripped (s : String) : List Char :=
  (stripChars isBraceChar
    (replaceAll ("uuid:".data) [] (replaceAll ("urn:".data) [] s.data))).filter
    (fun c => !(c == '-'))

/-- Whether uuid.UUID(s) succeeds (for any UUID version): after
normalisation exactly 32 hex digits remain. -/
def pyUUIDParses (s : String) : Bool :=
  (pyUUIDStripped s).length == 32 && (pyUUIDStripped s).all isHexDigitPy

/-- Canonical printed form of uuid.UUID(s): lowercase hex digits grouped
8-4-4-4-12 with hyphens, as produced by Python str(UUID). Only used on
inputs accepted by pyUUIDParses. -/
def pyUUIDCanon (s : String) : String :=
  let cs := (pyUUIDStripped s).map asciiLower
  String.mk (cs.take 8) ++ "-" ++ String.mk ((cs.drop 8).take 4) ++ "-" ++
    String.mk ((cs.drop 12).take 4) ++ "-" ++ String.mk ((cs.drop 16).take 4) ++
    "-" ++ String.mk (cs.drop 20)

/-- Translation of is_valid_uuid of src/workflow/mixins.py lines 89-97.
The Python code parses uuid.UUID(str(x), version=4), which forces the
variant bits to the RFC 4122 value and the version nibble to 4, and then
compares the canonical reprint against the original string. The reprint
is always the canonical lowercase hyphenated 36-character form, so the
round-trip equality holds exactly when the input already is canonical,
its version nibble (index 14) is 4, and its variant nibble (index 19) is
one of 8, 9, a, b (the fixed points of the forcing of the two top bits). -/
def is_valid_uuid (s : String) : Bool :=
  s.data.length == 36 &&
  (List.range 36).all (fun i =>
    let c := s.data.getD i '-'
    if i == 8 || i == 13 || i == 18 || i == 23 then c == '-'
    else if i == 14 then c == '4'
    else if i == 19 then c == '8' || c == '9' || c == 'a' || c == 'b'
    else isLowerHex c)

/-- Python str.split with a one-character separator (non-empty separator
case): returns one piece per gap, keeping empty pieces. -/
def splitOnChar (sep : Char) : List Char → List (List Char)
  | [] => [[]]
  | c :: t =>
    if c == sep then [] :: splitOnChar sep t
    else
      match splitOnChar sep t with
      | h :: r => (c :: h) :: r
      | [] => [[c]]

/-- Python s.split applied with the slash separator. -/
def pySplitSlash (s : String) : List String :=
  (splitOnChar '/' s.data).map String.mk

/-- Last component of a slash-separated path: csv_file.split with index -1
in the Python code. -/
def basename (s : String) : String :=
  (pySplitSlash s).getLastD ""

/-- Python str.endswith. -/
def strEndsWith (s suffixStr : String) : Bool :=
  suffixStr.data.isSuffixOf s.data

/-- Python truthiness of an optional string request parameter: None and
the empty string are falsy. -/
def pyTruthy : Option String → Bool
  | none => false
  | some s => !(s == "")

/-- Message of the Python ValueError raised when unpacking
dataset.split into two variables fails because the list has n elements. -/
def unpackMsg (n : Nat) : String :=
  if n < 2 then "not enough values to unpack (expected 2, got " ++ toString n ++ ")"
  else "too many values to unpack (expected 2)"

/-- Message raised when a downloaded dataset has no CSV file. -/
def noCsvMsg : String := "Dataset doesn" ++ sq ++ "t have any CSV files."

/-- Message raised when a required schema column is missing from a file,
from line 255 of src/workflow/mixins.py: it embeds the column name and
the base name of the file. -/
def missingColMsg (col fname : String) : String :=
  ("Column " ++ sq) ++ col ++ (sq ++ " does not exist in the dataset for " ++ fname)

/-- One character list occurs contiguously inside another. -/
def listInfix (needle hay : List Char) : Prop :=
  ∃ a b, hay = a ++ needle ++ b

/-- Executable check for listInfix. -/
def listIsInfixB (needle hay : List Char) : Bool :=
  (List.range (hay.length + 1)).any (fun i => needle.isPrefixOf (hay.drop i))

/- ## Data model (workflow/models.py records, as used by the mixins) -/

/-- Identity record (workflow.models.User), as created by UserIDMixin. -/
structure User where
  user_id : String
  role : String
  is_active : Bool
deriving DecidableEq, Repr

/-- Workflow record, with the fields the mixins read and write. -/
structure Workflow where
  workflow_id : Nat
  user_id : String
  type : String
  workflow_name : String
deriving DecidableEq, Repr

/-- Dataset record, with the fields the mixins read and write. -/
structure Dataset where
  id : Nat
  huggingface_id : String
  name : String
  type : String
  workflow_id : Nat
  is_locally_cached : Bool
  latest_commit_hash : String
deriving DecidableEq, Repr

/-- Row record (workflow.models.DatasetData): reconciled identifier,
owning dataset, source file name, and the schema-mapped fields as pairs
of task key and cell value (the dynamic setattr loop of lines 277-278). -/
structure DatasetData where
  id : String
  dataset_id : Nat
  file : String
  fields : List (String × String)
deriving DecidableEq, Repr

/-- Parsed tabular file, as produced by pandas.read_csv: column names and
rows, each row an association list from column name to cell value. -/
structure CsvTable where
  columns : List String
  rows : List (List (String × String))
deriving DecidableEq, Repr

/-- Cell access row[col]; total with an empty-string default, only used on
columns whose presence the code has established. -/
def cell (r : List (String × String)) (c : String) : String :=
  match r.find? (fun p => p.1 == c) with
  | some p => p.2
  | none => ""

/-- Assignment row[col] = v: a later lookup of col sees v. -/
def setCell (r : List (String × String)) (c v : String) : List (String × String) :=
  (c, v) :: r

/-- Remote dataset repository collaborator (huggingface_hub.HfApi):
existence check, content hash, file listing, per-file download returning
a local path, and parsing of a downloaded file. -/
structure Hub where
  repoExists : String → Bool
  repoSha : String → String
  repoFiles : String → List String
  downloadPath : String → String → String
  readCsv : String → CsvTable

/-- Ambient collaborators of one pipeline run: the remote hub, the task
schema registry get_task_mapping (empty list models a falsy result, i.e.
an unknown task type), the v4 UUID generator stream modelling uuid.uuid4
(successive calls read successive indices), and the per-row persistence
oracle (false models a store exception raised by row_data.save). -/
structure Env where
  hub : Hub
  getTaskMapping : String → List (String × String)
  fresh : Nat → String
  saveOk : DatasetData → Bool

/-- The Python exceptions distinguished by the dispatch handler of
lines 207-217: ValueError maps to 400, FileNotFoundError to 404, any
other exception to 500. -/
inductive PyError where
  | valueError (msg : String)
  | fileNotFound (msg : String)
  | exception (msg : String)
deriving DecidableEq, Repr

/-- Result of cache_dataset: either the updated dataset record saved at
lines 283-285, or the propagated exception. -/
inductive CacheOutcome where
  | ok (d : Dataset)
  | err (e : PyError)
deriving DecidableEq, Repr

/-- Full effect of one cache_dataset call: the row records persisted
before completion or failure (there is no rollback), and the outcome. -/
structure CacheResult where
  persisted : List DatasetData
  outcome : CacheOutcome
deriving DecidableEq, Repr

/-- Relational store contents, each table in creation order, plus the
next auto-generated primary keys. -/
structure Store where
  users : List User
  userCache : List (String × User)
  workflows : List Workflow
  datasets : List Dataset
  rows : List DatasetData
  nextWorkflowId : Nat
  nextDatasetId : Nat
deriving DecidableEq, Repr

/-- Outcome of UserIDMixin.dispatch before the wrapped view runs. -/
inductive AuthResult where
  | ok (user : User)
  | unauthorized (error : String)
deriving DecidableEq, Repr

/-- Whether an AuthResult is a 401 JSON error envelope. -/
def AuthResult.isUnauthorized : AuthResult → Bool
  | .unauthorized _ => true
  | .ok _ => false

/-- The part of the store UserIDMixin touches: the User table and the
read-through identity cache keyed by user_ plus the canonical token. -/
structure AuthState where
  users : List User
  userCache : List (String × User)
deriving DecidableEq, Repr

/-- Outcome of CacheDatasetMixin.dispatch: on success the wrapped view
runs with cached_dataset_id and workflow_id attached to the request META;
on failure a JSON error envelope with an HTTP status is returned. -/
inductive DispatchResult where
  | success (cached_dataset_id : Nat) (workflow_id : Nat)
  | jsonError (status : Nat) (error : String)
deriving DecidableEq, Repr

/- ## Ingestion (CacheDatasetMixin.cache_dataset, lines 224-285) -/

/-- Identifier reconciliation when an id column exists (lines 259-263):
values passing is_valid_uuid are kept, others are replaced by the next
fresh v4 UUID from the generator stream starting at index c. -/
def reconcileIds (env : Env) : List String → Nat → List String
  | [], _ => []
  | v :: rest, c =>
    if is_valid_uuid v then v :: reconcileIds env rest c
    else env.fresh c :: reconcileIds env rest (c + 1)

/-- Number of generator values consumed by reconcileIds. -/
def reconcileCtr : List String → Nat → Nat
  | [], c => c
  | v :: rest, c => reconcileCtr rest (if is_valid_uuid v then c else c + 1)

/-- Fresh identifiers for every row when no id column exists
(lines 264-266). -/
def freshIds (env : Env) : Nat → Nat → List String
  | 0, _ => []
  | n + 1, c => env.fresh c :: freshIds env n (c + 1)

/-- The schema-mapped fields of one row record (lines 277-278): for each
task key the value of the mapped source column. -/
def rowFields (tm : List (String × String)) (r : List (String × String)) :
    List (String × String) :=
  tm.map (fun kc => (kc.1, cell r kc.2))

/-- Row records of one file (lines 269-280): pair the reconciled
identifiers with the source rows; each row carries its reconciled id (the
dataframe assignment of lines 261-266 happens before iterrows). -/
def mkRecords (d : Dataset) (fname : String) (tm : List (String × String)) :
    List String → List (List (String × String)) → List DatasetData
  | i :: is, r :: rs =>
    { id := i, dataset_id := d.id, file := fname,
      fields := rowFields tm (setCell r "id" i) } :: mkRecords d fname tm is rs
  | _, _ => []

/-- Reconciled identifier column of one parsed file. -/
def fileIds (env : Env) (tbl : CsvTable) (c : Nat) : List String :=
  if tbl.columns.contains "id" then
    reconcileIds env (tbl.rows.map (fun r => cell r "id")) c
  else freshIds env tbl.rows.length c

/-- Generator index after processing one parsed file. -/
def fileCtr (tbl : CsvTable) (c : Nat) : Nat :=
  if tbl.columns.contains "id" then
    reconcileCtr (tbl.rows.map (fun r => cell r "id")) c
  else c + tbl.rows.length

/-- All row records constructed for one downloaded file. -/
def fileRecords (env : Env) (d : Dataset) (tm : List (String × String))
    (path : String) (c : Nat) : List DatasetData :=
  let tbl := env.hub.readCsv path
  mkRecords d (basename path) tm (fileIds env tbl c) tbl.rows

/-- First required source column absent from the parsed file, scanning
the mapping in its own order (lines 253-257). -/
def missingCol (tm : List (String × String)) (tbl : CsvTable) : Option String :=
  (tm.map (fun kc => kc.2)).find? (fun col => !(tbl.columns.contains col))

/-- Sequential persistence of the row records of one file: stops at the
first failing save, whose exception propagates. -/
def saveRows (env : Env) : List DatasetData → List DatasetData × Option PyError
  | [] => ([], none)
  | r :: rest =>
    if env.saveOk r then
      let t := saveRows env rest
      (r :: t.1, t.2)
    else ([], some (PyError.exception "row save failed"))

/-- Ingestion of one downloaded file (lines 250-281): the column check
runs before any row write of the file; on success the constructed
records are persisted in order. Returns persisted rows, the error if
any, and the next generator index. -/
def processFile (env : Env) (d : Dataset) (tm : List (String × String))
    (path : String) (c : Nat) : List DatasetData × Option PyError × Nat :=
  let tbl := env.hub.readCsv path
  match missingCol tm tbl with
  | some col => ([], some (PyError.valueError (missingColMsg col (basename path))), c)
  | none =>
    let t := saveRows env (fileRecords env d tm path c)
    (t.1, t.2, fileCtr tbl c)

/-- Ingestion of the downloaded files in order; a failing file aborts the
loop but the rows already persisted stay persisted. -/
def ingestFiles (env : Env) (d : Dataset) (tm : List (String × String)) :
    List String → Nat → List DatasetData × Option PyError
  | [], _ => ([], none)
  | p :: rest, c =>
    let t := processFile env d tm p c
    match t.2.1 with
    | some e => (t.1, some e)
    | none =>
      let t2 := ingestFiles env d tm rest t.2.2
      (t.1 ++ t2.1, t2.2)

/-- Local paths of the CSV files of a remote dataset, in listing order
(lines 230-245). -/
def csvPaths (env : Env) (dataset : String) : List String :=
  ((env.hub.repoFiles dataset).filter (fun f => strEndsWith f ".csv")).map
    (env.hub.downloadPath dataset)

/-- Total number of source rows across the CSV files of a remote dataset. -/
def totalRows (env : Env) (dataset : String) : Nat :=
  ((csvPaths env dataset).map (fun p => (env.hub.readCsv p).rows.length)).sum

/-- Translation of cache_dataset (lines 224-285): existence check,
enumeration and download of CSV files, per-file ingestion, and finally
the flag and content-hash update of the dataset record. The dataset
record is only updated after every file succeeds. -/
def cache_dataset (env : Env) (dataset_object : Dataset)
    (task_mapping : List (String × String)) (dataset : String) : CacheResult :=
  if env.hub.repoExists dataset then
    if (csvPaths env dataset).isEmpty then
      { persisted := [], outcome := CacheOutcome.err (PyError.valueError noCsvMsg) }
    else
      match ingestFiles env dataset_object task_mapping (csvPaths env dataset) 0 with
      | (ps, some e) => { persisted := ps, outcome := CacheOutcome.err e }
      | (ps, none) =>
        { persisted := ps,
          outcome := CacheOutcome.ok
            { dataset_object with is_locally_cached := true,
                                  latest_commit_hash := env.hub.repoSha dataset } }
  else
    { persisted := [], outcome := CacheOutcome.err (PyError.fileNotFound "Dataset not found.") }

/- ## Dataset resolution and dispatch (CacheDatasetMixin.dispatch) -/

/-- Store update produced by one cache_dataset call: persisted rows are
appended unconditionally; the dataset record is replaced only on
success (its save is the last statement of cache_dataset). -/
def applyCache (st : Store) (res : CacheResult) : Store :=
  { st with
    rows := st.rows ++ res.persisted,
    datasets :=
      match res.outcome with
      | CacheOutcome.ok d2 => st.datasets.map (fun x => if x.id == d2.id then d2 else x)
      | CacheOutcome.err _ => st.datasets }

/-- Dataset provenance decision of lines 160-196, given the bound
workflow and whether it was just created. -/
def resolveDataset (env : Env) (st : Store) (dataset : Option String)
    (task_type : String) (task_mapping : List (String × String))
    (workflow_id : Nat) (created : Bool) : Store × CacheOutcome :=
  if pyTruthy dataset then
    let ds := dataset.getD ""
    let parts := pySplitSlash ds
    if parts.length == 2 then
      match st.datasets.find? (fun x => x.type == task_type && x.workflow_id == workflow_id) with
      | some dataset_object =>
        if dataset_object.is_locally_cached then (st, CacheOutcome.ok dataset_object)
        else
          let res := cache_dataset env dataset_object task_mapping ds
          (applyCache st res, res.outcome)
      | none =>
        let dataset_object : Dataset :=
          { id := st.nextDatasetId, huggingface_id := parts.getD 0 "",
            name := parts.getD 1 "", type := task_type,
            workflow_id := workflow_id, is_locally_cached := false,
            latest_commit_hash := "" }
        let st1 := { st with datasets := st.datasets ++ [dataset_object],
                             nextDatasetId := st.nextDatasetId + 1 }
        let res := cache_dataset env dataset_object task_mapping ds
        (applyCache st1 res, res.outcome)
    else (st, CacheOutcome.err (PyError.valueError (unpackMsg parts.length)))
  else if !created then
    match st.datasets.find? (fun x => x.workflow_id == workflow_id) with
    | some dataset_object =>
      if dataset_object.is_locally_cached then (st, CacheOutcome.ok dataset_object)
      else
        let res := cache_dataset env dataset_object task_mapping
          (dataset_object.huggingface_id ++ "/" ++ dataset_object.name)
        (applyCache st res, res.outcome)
    | none => (st, CacheOutcome.err (PyError.valueError "No dataset associated with the workflow."))
  else (st, CacheOutcome.err (PyError.valueError "No dataset available."))

/-- Whether a workflow matches the requested task type: its first bound
dataset, if any, has that type (lines 135-138). -/
def wfMatches (st : Store) (task_type : String) (w : Workflow) : Bool :=
  match st.datasets.find? (fun d => d.workflow_id == w.workflow_id) with
  | some d => d.type == task_type
  | none => false

/-- The workflows of one user, in creation order. -/
def userWorkflows (st : Store) (user_id : String) : List Workflow :=
  st.workflows.filter (fun w => w.user_id == user_id)

/-- Scan of lines 132-145: id of the first workflow of the user whose
first bound dataset has the requested task type. -/
def findWorkflow (st : Store) (user_id : String) (task_type : String) : Option Nat :=
  ((userWorkflows st user_id).find? (wfMatches st task_type)).map (fun w => w.workflow_id)

/-- Error translation of the dispatch handler (lines 207-217). -/
def errToResponse : PyError → DispatchResult
  | PyError.valueError m => DispatchResult.jsonError 400 m
  | PyError.fileNotFound m => DispatchResult.jsonError 404 m
  | PyError.exception m => DispatchResult.jsonError 500 m

/-- Translation of CacheDatasetMixin.dispatch (lines 100-222). The
Workflows queryset built at line 113 is lazy, so the registry lookup of
lines 127-130 runs before any store access; the scan, the possible
workflow creation and the dataset resolution follow in order. -/
def cacheDispatch (env : Env) (st : Store) (user_id : String)
    (dataset : Option String) (task_type : String) : DispatchResult × Store :=
  let task_mapping := env.getTaskMapping task_type
  if task_mapping.isEmpty then
    (DispatchResult.jsonError 400 "Please give a valid task type.", st)
  else
    match findWorkflow st user_id task_type with
    | some workflow_id =>
      let r := resolveDataset env st dataset task_type task_mapping workflow_id false
      (match r.2 with
       | CacheOutcome.ok d => DispatchResult.success d.id workflow_id
       | CacheOutcome.err e => errToResponse e, r.1)
    | none =>
      let w : Workflow :=
        { workflow_id := st.nextWorkflowId, user_id := user_id,
          type := "Training", workflow_name := "training_" ++ task_type }
      let st1 := { st with workflows := st.workflows ++ [w],
                           nextWorkflowId := st.nextWorkflowId + 1 }
      let r := resolveDataset env st1 dataset task_type task_mapping w.workflow_id true
      (match r.2 with
       | CacheOutcome.ok d => DispatchResult.success d.id w.workflow_id
       | CacheOutcome.err e => errToResponse e, r.1)

/- ## Identity resolution (UserIDMixin.dispatch, lines 51-86) -/

/-- Read-through identity lookup of lines 67-83, reached only after the
header checks pass: cache hit returns the cached user; store hit
populates the cache; otherwise a new active user with the supplied role
is created and cached. -/
def lookupUser (st : AuthState) (uidCanon role : String) : User × AuthState :=
  match st.userCache.find? (fun p => p.1 == "user_" ++ uidCanon) with
  | some pr => (pr.2, st)
  | none =>
    match st.users.find? (fun u => u.user_id == uidCanon) with
    | some u => (u, { st with userCache := st.userCache ++ [("user_" ++ uidCanon, u)] })
    | none =>
      let u : User := { user_id := uidCanon, role := role, is_active := true }
      (u, { users := st.users ++ [u], userCache := st.userCache ++ [("user_" ++ uidCanon, u)] })

/-- Translation of UserIDMixin.dispatch: 401 when the User-Id header is
absent or empty, when uuid.UUID rejects it (any version is accepted), or
when the role header is absent or empty; otherwise the identity is
resolved through the cache and store under the canonical token. -/
def userIdDispatch (st : AuthState) (user_id : Option String) (role : Option String) :
    AuthResult × AuthState :=
  if pyTruthy user_id = false then (AuthResult.unauthorized "User ID must be provided.", st)
  else if pyUUIDParses (user_id.getD "") = false then
    (AuthResult.unauthorized "Invalid user ID format.", st)
  else if pyTruthy role = false then (AuthResult.unauthorized "Role must be provided.", st)
  else
    let t := lookupUser st (pyUUIDCanon (user_id.getD "")) (role.getD "")
    (AuthResult.ok t.1, t.2)

/- ## Concrete fixtures used by witnesses and counterexamples -/

/-- Constant v4 UUID generator used in concrete runs. -/
def freshC : Nat → String := fun _ => "aaaaaaaa-aaaa-4aaa-8aaa-aaaaaaaaaaaa"

/-- Concrete parsed file with an id column holding one canonical v4 value
and one malformed value. -/
def tblC : CsvTable :=
  { columns := ["id", "prompt", "response"],
    rows := [[("id", "3fa85f64-5717-4562-b3fc-2c963f66afa6"), ("prompt", "p1"), ("response", "r1")],
             [("id", "not-a-uuid"), ("prompt", "p2"), ("response", "r2")]] }

/-- Concrete parsed file missing the response column. -/
def tblMissingC : CsvTable :=
  { columns := ["id", "prompt"], rows := [[("id", "x"), ("prompt", "p")]] }

/-- Concrete remote hub with one repository holding one CSV file. -/
def hubC : Hub :=
  { repoExists := fun r => r == "user1/data",
    repoSha := fun _ => "sha1",
    repoFiles := fun _ => ["train.csv", "README.md"],
    downloadPath := fun _ f => "/tmp/" ++ f,
    readCsv := fun _ => tblC }

/-- Concrete task schema mapping of the classification task. -/
def tmC : List (String × String) := [("input", "prompt"), ("output", "response")]

/-- Concrete environment: registry knowing only the classification task,
reliable saves. -/
def envC : Env :=
  { hub := hubC,
    getTaskMapping := fun t => if t == "classification" then tmC else [],
    fresh := freshC,
    saveOk := fun _ => true }

/-- Concrete environment whose downloaded file misses a required column. -/
def envMissingC : Env := { envC with hub := { hubC with readCsv := fun _ => tblMissingC } }

/-- Concrete uncached dataset record bound to workflow 1. -/
def dC : Dataset :=
  { id := 1, huggingface_id := "user1", name := "data", type := "classification",
    workflow_id := 1, is_locally_cached := false, latest_commit_hash := "" }

/-- The same dataset record once cached. -/
def dCachedC : Dataset := { dC with is_locally_cached := true, latest_commit_hash := "sha1" }

/-- Concrete workflow owned by user u1. -/
def wC : Workflow :=
  { workflow_id := 1, user_id := "u1", type := "Training",
    workflow_name := "training_classification" }

/-- Concrete store: one workflow bound to the uncached dataset. -/
def stC : Store :=
  { users := [], userCache := [], workflows := [wC], datasets := [dC], rows := [],
    nextWorkflowId := 2, nextDatasetId := 2 }

/-- The concrete store with the dataset already cached. -/
def stCachedC : Store := { stC with datasets := [dCachedC] }

/-- The concrete store with the workflow bound to no dataset. -/
def stEmptyDsC : Store := { stC with datasets := [] }

/-- A store with no workflows at all. -/
def stNoWfC : Store := { stC with workflows := [], datasets := [] }

/-- Default row record for total positional access. -/
def dfltRec : DatasetData := { id := "", dataset_id := 0, file := "", fields := [] }

/- ## Claim statements -/

/-- Statement of claim C1: on success the updated dataset record is
flagged cached, stamped with the observed content hash, and every source
row of every CSV file has been persisted; on failure the dataset table is
left untouched, so the record stays uncached. -/
def c1Prop (env : Env) (tm : List (String × String)) (ref : String)
    (st : Store) (d : Dataset) : Prop :=
  (∀ d2, (cache_dataset env d tm ref).outcome = CacheOutcome.ok d2 →
    d2.is_locally_cached = true ∧
    d2.latest_commit_hash = env.hub.repoSha ref ∧
    (cache_dataset env d tm ref).persisted.length = totalRows env ref) ∧
  (∀ e, (cache_dataset env d tm ref).outcome = CacheOutcome.err e →
    (applyCache st (cache_dataset env d tm ref)).datasets = st.datasets ∧
    d ∈ (applyCache st (cache_dataset env d tm ref)).datasets ∧
    d.is_locally_cached = false)

/-- Statement of claim C2 about the row records ingested for one file:
with an id column, canonically valid v4 identifiers are preserved and
other values are replaced by generator outputs; without an id column
every row gets a generator output; all persisted identifiers are valid
v4 UUIDs. -/
def c2Prop (env : Env) (d : Dataset) (tm : List (String × String))
    (path : String) (c : Nat) : Prop :=
  (processFile env d tm path c).1.length = (env.hub.readCsv path).rows.length ∧
  ∀ i, i < (env.hub.readCsv path).rows.length →
    is_valid_uuid ((processFile env d tm path c).1.getD i dfltRec).id = true ∧
    ("id" ∈ (env.hub.readCsv path).columns →
      (is_valid_uuid (cell ((env.hub.readCsv path).rows.getD i []) "id") = true →
        ((processFile env d tm path c).1.getD i dfltRec).id =
          cell ((env.hub.readCsv path).rows.getD i []) "id") ∧
      (is_valid_uuid (cell ((env.hub.readCsv path).rows.getD i []) "id") = false →
        ∃ j, ((processFile env d tm path c).1.getD i dfltRec).id = env.fresh j)) ∧
    ("id" ∉ (env.hub.readCsv path).columns →
      ∃ j, ((processFile env d tm path c).1.getD i dfltRec).id = env.fresh j)

/-- Statement of claim C3: a file whose first absent required column is
col fails with the ValueError built from the column and the file base
name, persists none of its rows, and consumes no generator values; the
message contains both the column name and the file name. -/
def c3Prop (env : Env) (d : Dataset) (tm : List (String × String))
    (path : String) (c : Nat) (col : String) : Prop :=
  processFile env d tm path c =
    ([], some (PyError.valueError (missingColMsg col (basename path))), c) ∧
  listInfix col.data (missingColMsg col (basename path)).data ∧
  listInfix (basename path).data (missingColMsg col (basename path)).data

/-- Statement of claim C4, at the dataset-resolution step with no
explicit reference: a just-created workflow fails with the
no-dataset-available ValueError (a 400); an existing workflow with no
bound dataset fails with the no-dataset-associated ValueError; an
existing workflow with a first bound dataset uses it, ingesting only
when it is not already cached. -/
def c4Prop (env : Env) (st : Store) (task_type : String)
    (task_mapping : List (String × String)) (workflow_id : Nat) : Prop :=
  resolveDataset env st none task_type task_mapping workflow_id true =
    (st, CacheOutcome.err (PyError.valueError "No dataset available.")) ∧
  errToResponse (PyError.valueError "No dataset available.") =
    DispatchResult.jsonError 400 "No dataset available." ∧
  (st.datasets.find? (fun x => x.workflow_id == workflow_id) = none →
    resolveDataset env st none task_type task_mapping workflow_id false =
      (st, CacheOutcome.err (PyError.valueError "No dataset associated with the workflow."))) ∧
  (∀ d0, st.datasets.find? (fun x => x.workflow_id == workflow_id) = some d0 →
    (d0.is_locally_cached = true →
      resolveDataset env st none task_type task_mapping workflow_id false =
        (st, CacheOutcome.ok d0)) ∧
    (d0.is_locally_cached = false →
      resolveDataset env st none task_type task_mapping workflow_id false =
        (applyCache st (cache_dataset env d0 task_mapping
            (d0.huggingface_id ++ "/" ++ d0.name)),
          (cache_dataset env d0 task_mapping (d0.huggingface_id ++ "/" ++ d0.name)).outcome)))

/-- Statement of claim C5: when the resolved dataset is already cached,
dispatch succeeds with its id and leaves the store entirely unchanged,
for any hub (so no download can be observed), both without an explicit
reference and with any well-formed explicit reference. -/
def c5Prop (env : Env) (st : Store) (user_id task_type : String)
    (wid : Nat) (d : Dataset) : Prop :=
  cacheDispatch env st user_id none task_type = (DispatchResult.success d.id wid, st) ∧
  ∀ s : String, s ≠ "" → (pySplitSlash s).length = 2 →
    cacheDispatch env st user_id (some s) task_type = (DispatchResult.success d.id wid, st)

/-- Statement of the amended claim C6: an unknown task type yields the
400 envelope with the message of line 130 and the unchanged store, for
every store and every hub (no network or store effect). -/
def c6Prop (env : Env) (st : Store) (user_id : String)
    (dataset : Option String) (task_type : String) : Prop :=
  cacheDispatch env st user_id dataset task_type =
    (DispatchResult.jsonError 400 "Please give a valid task type.", st)

/-- Statement of claim C7: a successful scan returns the id of the first
workflow, in creation order, whose first bound dataset has the requested
task type, and dispatch then creates no workflow; when no workflow
matches, dispatch appends exactly one new Training workflow named after
the task type. -/
def c7Prop (env : Env) (st : Store) (user_id : String)
    (dataset : Option String) (task_type : String) : Prop :=
  (∀ wid, findWorkflow st user_id task_type = some wid →
    (∃ w l₁ l₂, userWorkflows st user_id = l₁ ++ w :: l₂ ∧ w.workflow_id = wid ∧
      wfMatches st task_type w = true ∧ ∀ w2 ∈ l₁, wfMatches st task_type w2 = false) ∧
    (env.getTaskMapping task_type ≠ [] →
      (cacheDispatch env st user_id dataset task_type).2.workflows = st.workflows)) ∧
  (findWorkflow st user_id task_type = none → env.getTaskMapping task_type ≠ [] →
    (cacheDispatch env st user_id dataset task_type).2.workflows =
      st.workflows ++ [{ workflow_id := st.nextWorkflowId,
                         user_id := user_id,
                         type := "Training",
                         workflow_name := "training_" ++ task_type }])

/-- Statement of the amended claim C8: the identity step returns 401
exactly when the token is absent or empty, not parseable by uuid.UUID
(any version), or the role is absent or empty; and a 401 leaves the user
store and the identity cache untouched. -/
def c8Prop (st : AuthState) (user_id role : Option String) : Prop :=
  ((userIdDispatch st user_id role).1.isUnauthorized = true ↔
    (pyTruthy user_id = false ∨ pyUUIDParses (user_id.getD "") = false ∨
      pyTruthy role = false)) ∧
  ((userIdDispatch st user_id role).1.isUnauthorized = true →
    (userIdDispatch st user_id role).2 = st)

/-- Statement of claim C9: an explicit reference that does not split into
exactly two slash-separated parts yields the 400 envelope carrying the
Python unpacking message, with the dataset and row tables unchanged, for
every hub (no remote call, no dataset lookup or creation). -/
def c9Prop (env : Env) (st : Store) (user_id task_type s : String) : Prop :=
  (cacheDispatch env st user_id (some s) task_type).1 =
    DispatchResult.jsonError 400 (unpackMsg (pySplitSlash s).length) ∧
  (cacheDispatch env st user_id (some s) task_type).2.datasets = st.datasets ∧
  (cacheDispatch env st user_id (some s) task_type).2.rows = st.rows

/-- Statement of claim C10: with an explicit reference and an existing
uncached dataset record for the task and workflow, dispatch ingests from
the supplied reference against that record, and a successful ingestion
changes only the cached flag and the content hash of the record. -/
def c10Prop (env : Env) (st : Store) (user_id task_type s : String)
    (wid : Nat) (d : Dataset) : Prop :=
  cacheDispatch env st user_id (some s) task_type =
    ((match (cache_dataset env d (env.getTaskMapping task_type) s).outcome with
      | CacheOutcome.ok d2 => DispatchResult.success d2.id wid
      | CacheOutcome.err e => errToResponse e),
      applyCache st (cache_dataset env d (env.getTaskMapping task_type) s)) ∧
  (∀ d2, (cache_dataset env d (env.getTaskMapping task_type) s).outcome = CacheOutcome.ok d2 →
    d2.huggingface_id = d.huggingface_id ∧ d2.name = d.name ∧ d2.id = d.id ∧
    d2.type = d.type ∧ d2.workflow_id = d.workflow_id ∧
    d2.is_locally_cached = true ∧
    d2.latest_commit_hash = env.hub.repoSha s)

/- ## Helper lemmas -/

theorem string_data_append (s t : String) : (s ++ t).data = s.data ++ t.data := rfl

theorem listFindSplit {α : Type} (p : α → Bool) (l : List α) (a : α)
    (h : l.find? p = some a) :
    ∃ l₁ l₂, l = l₁ ++ a :: l₂ ∧ (∀ x ∈ l₁, p x = false) ∧ p a = true := by
  induction l with
  | nil => simp at h
  | cons b t ih =>
    cases hb : p b with
    | true =>
      rw [List.find?_cons_of_pos _ hb] at h
      cases h
      exact ⟨[], t, rfl, by simp, hb⟩
    | false =>
      rw [List.find?_cons_of_neg _ (by simp [hb])] at h
      obtain ⟨l₁, l₂, hl, h1, h2⟩ := ih h
      refine ⟨b :: l₁, l₂, by rw [hl, List.cons_append], ?_, h2⟩
      intro x hx
      rcases List.mem_cons.mp hx with hx | hx
      · rw [hx]; exact hb
      · exact h1 x hx

theorem listFindStrengthen {α : Type} (p q : α → Bool) (l : List α) (a : α)
    (hp : l.find? p = some a) (hq : q a = true)
    (himp : ∀ x, q x = true → p x = true) :
    l.find? q = some a := by
  induction l with
  | nil => simp at hp
  | cons b t ih =>
    cases hb : p b with
    | true =>
      rw [List.find?_cons_of_pos _ hb] at hp
      cases hp
      exact List.find?_cons_of_pos _ hq
    | false =>
      have hqb : q b = false := by
        cases hqb2 : q b with
        | false => rfl
        | true => rw [himp b hqb2] at hb; exact absurd hb (by simp)
      rw [List.find?_cons_of_neg _ (by simp [hb])] at hp
      rw [List.find?_cons_of_neg _ (by simp [hqb])]
      exact ih hp

theorem listGetDMap {α β : Type} (f : α → β) (db : β) (da : α) :
    ∀ (l : List α) (i : Nat), i < l.length → (l.map f).getD i db = f (l.getD i da)
  | a :: l, 0, _ => rfl
  | a :: l, i + 1, h => by
    simpa using listGetDMap f db da l i (by simpa using h)
  | [], i, h => by simp at h

theorem reconcileIds_length (env : Env) : ∀ (vs : List String) (c : Nat),
    (reconcileIds env vs c).length = vs.length
  | [], _ => rfl
  | v :: rest, c => by
    cases h : is_valid_uuid v <;>
      simp [reconcileIds, h, reconcileIds_length env rest]

theorem freshIds_length (env : Env) : ∀ (n c : Nat), (freshIds env n c).length = n
  | 0, _ => rfl
  | n + 1, c => by simp [freshIds, freshIds_length env n]

theorem freshIds_getD (env : Env) : ∀ (n c i : Nat), i < n →
    (freshIds env n c).getD i "" = env.fresh (c + i)
  | 0, _, i, h => by omega
  | n + 1, c, 0, _ => by simp [freshIds]
  | n + 1, c, i + 1, h => by
    simp only [freshIds, List.getD_cons_succ]
    rw [freshIds_getD env n (c + 1) i (by omega)]
    congr 1
    omega

theorem reconcileIds_getD (env : Env) : ∀ (vs : List String) (c i : Nat), i < vs.length →
    (is_valid_uuid (vs.getD i "") = true →
      (reconcileIds env vs c).getD i "" = vs.getD i "") ∧
    (is_valid_uuid (vs.getD i "") = false →
      ∃ j, (reconcileIds env vs c).getD i "" = env.fresh j)
  | [], _, i, h => by simp at h
  | v :: rest, c, 0, _ => by
    cases h : is_valid_uuid v with
    | true => simp [reconcileIds, h]
    | false => exact ⟨by simp [h], fun _ => ⟨c, by simp [reconcileIds, h]⟩⟩
  | v :: rest, c, i + 1, h => by
    have h2 : i < rest.length := by simpa using h
    cases hv : is_valid_uuid v with
    | true => simpa [reconcileIds, hv] using reconcileIds_getD env rest c i h2
    | false => simpa [reconcileIds, hv] using reconcileIds_getD env rest (c + 1) i h2

theorem mkRecords_length (d : Dataset) (fname : String) (tm : List (String × String)) :
    ∀ (ids : List String) (rows : List (List (String × String))),
      (mkRecords d fname tm ids rows).length = min ids.length rows.length
  | [], rows => by simp [mkRecords]
  | i :: is, [] => by simp [mkRecords]
  | i :: is, r :: rs => by
    simp [mkRecords, mkRecords_length d fname tm is rs, Nat.succ_min_succ]

theorem mkRecords_getD (d : Dataset) (fname : String) (tm : List (String × String)) :
    ∀ (ids : List String) (rows : List (List (String × String))) (i : Nat),
      i < ids.length → i < rows.length →
      (mkRecords d fname tm ids rows).getD i dfltRec =
        { id := ids.getD i "", dataset_id := d.id, file := fname,
          fields := rowFields tm (setCell (rows.getD i []) "id" (ids.getD i "")) }
  | [], _, i, h1, _ => by simp at h1
  | a :: as, [], i, _, h2 => by simp at h2
  | a :: as, r :: rs, 0, _, _ => by simp [mkRecords]
  | a :: as, r :: rs, i + 1, h1, h2 => by
    simpa [mkRecords] using
      mkRecords_getD d fname tm as rs i (by simpa using h1) (by simpa using h2)

theorem fileIds_length (env : Env) (tbl : CsvTable) (c : Nat) :
    (fileIds env tbl c).length = tbl.rows.length := by
  by_cases h : "id" ∈ tbl.columns <;>
    simp [fileIds, h, reconcileIds_length, freshIds_length]

theorem fileRecords_length (env : Env) (d : Dataset) (tm : List (String × String))
    (path : String) (c : Nat) :
    (fileRecords env d tm path c).length = (env.hub.readCsv path).rows.length := by
  unfold fileRecords
  rw [mkRecords_length, fileIds_length, Nat.min_self]

theorem saveRows_all (env : Env) (h : ∀ r, env.saveOk r = true) :
    ∀ l, saveRows env l = (l, none)
  | [] => rfl
  | r :: rest => by simp [saveRows, h r, saveRows_all env h rest]

theorem saveRows_none (env : Env) : ∀ l, (saveRows env l).2 = none → (saveRows env l).1 = l
  | [] => fun _ => rfl
  | r :: rest => by
    intro h
    cases hs : env.saveOk r with
    | false => simp [saveRows, hs] at h
    | true =>
      simp only [saveRows, hs, if_true] at h ⊢
      rw [saveRows_none env rest h]

theorem processFile_none (env : Env) (d : Dataset) (tm : List (String × String))
    (path : String) (c : Nat) (h : (processFile env d tm path c).2.1 = none) :
    (processFile env d tm path c).1.length = (env.hub.readCsv path).rows.length := by
  unfold processFile at h ⊢
  cases hm : missingCol tm (env.hub.readCsv path) with
  | some col => simp [hm] at h
  | none =>
    simp only [hm] at h ⊢
    rw [saveRows_none env _ h, fileRecords_length]

theorem ingestFiles_none (env : Env) (d : Dataset) (tm : List (String × String)) :
    ∀ (paths : List String) (c : Nat), (ingestFiles env d tm paths c).2 = none →
      (ingestFiles env d tm paths c).1.length =
        ((paths.map (fun p => (env.hub.readCsv p).rows.length)).sum)
  | [], c => by simp [ingestFiles]
  | p :: rest, c => by
    intro h
    cases hp : (processFile env d tm p c).2.1 with
    | some e => simp [ingestFiles, hp] at h
    | none =>
      simp only [ingestFiles, hp] at h ⊢
      rw [List.length_append, processFile_none env d tm p c hp,
        ingestFiles_none env d tm rest _ h, List.map_cons, List.sum_cons]

theorem applyCache_workflows (st : Store) (res : CacheResult) :
    (applyCache st res).workflows = st.workflows := rfl

theorem applyCache_datasets_err (st : Store) (res : CacheResult) (e : PyError)
    (h : res.outcome = CacheOutcome.err e) :
    (applyCache st res).datasets = st.datasets := by
  simp [applyCache, h]

theorem cache_dataset_ok_spec (env : Env) (d : Dataset) (tm : List (String × String))
    (ref : String) (d2 : Dataset)
    (h : (cache_dataset env d tm ref).outcome = CacheOutcome.ok d2) :
    d2 = { d with is_locally_cached := true, latest_commit_hash := env.hub.repoSha ref } ∧
    (cache_dataset env d tm ref).persisted.length = totalRows env ref := by
  cases hre : env.hub.repoExists ref with
  | false => simp [cache_dataset, hre] at h
  | true =>
    cases hemp : (csvPaths env ref).isEmpty with
    | true => simp [cache_dataset, hre, hemp] at h
    | false =>
      rcases hi : ingestFiles env d tm (csvPaths env ref) 0 with ⟨ps, e⟩
      cases e with
      | some err => simp [cache_dataset, hre, hemp, hi] at h
      | none =>
        have hps : (cache_dataset env d tm ref).persisted = ps := by
          simp [cache_dataset, hre, hemp, hi]
        have hd2 : { d with is_locally_cached := true,
                            latest_commit_hash := env.hub.repoSha ref } = d2 := by
          simpa [cache_dataset, hre, hemp, hi] using h
        refine ⟨hd2.symm, ?_⟩
        rw [hps]
        have h2 := ingestFiles_none env d tm (csvPaths env ref) 0 (by rw [hi])
        rw [hi] at h2
        simpa [totalRows] using h2

theorem resolveDataset_workflows (env : Env) (st : Store) (ds : Option String)
    (tt : String) (tm : List (String × String)) (wid : Nat) (cr : Bool) :
    (resolveDataset env st ds tt tm wid cr).1.workflows = st.workflows := by
  unfold resolveDataset
  repeat' first
    | rfl
    | split
    | dsimp only

theorem pyTruthy_some (s : String) (hs : s ≠ "") : pyTruthy (some s) = true := by
  simp [pyTruthy, hs]

theorem listInfix_implies (n hay : List Char) (h : listInfix n hay) :
    listIsInfixB n hay = true := by
  obtain ⟨a, b, rfl⟩ := h
  unfold listIsInfixB
  rw [List.any_eq_true]
  refine ⟨a.length, ?_, ?_⟩
  · rw [List.mem_range]
    simp [List.length_append]
    omega
  · rw [List.append_assoc, List.drop_left]
    rw [List.isPrefixOf_iff_prefix]
    exact List.prefix_append n b

/- ## Claims -/

/-- C1. For every ingestion run over a set of files, the is_locally_cached
flag and the observed content hash are stored only after every row of
every file has been persisted successfully; on any failure (missing
repository, validation error, or a failing row save) the Dataset record
in the store is untouched and remains uncached. -/
theorem c1_cache_only_after_all_rows (env : Env) (tm : List (String × String))
    (ref : String) (st : Store) (d : Dataset)
    (hd : d ∈ st.datasets) (h0 : d.is_locally_cached = false) :
    c1Prop env tm ref st d := by
  constructor
  · intro d2 hok
    obtain ⟨hshape, hlen⟩ := cache_dataset_ok_spec env d tm ref d2 hok
    subst hshape
    exact ⟨rfl, rfl, hlen⟩
  · intro e herr
    have hds := applyCache_datasets_err st (cache_dataset env d tm ref) e herr
    exact ⟨hds, by rw [hds]; exact hd, h0⟩

/-- Witness for C1 at the concrete fixture. -/
theorem c1_witness : c1Prop envC tmC "user1/data" stC dC :=
  c1_cache_only_after_all_rows envC tmC "user1/data" stC dC (by decide) (by decide)

/-- C2. Identifier reconciliation: with an id column, canonically valid
v4 values are preserved in the persisted row records and other values
are replaced with generator outputs; without an id column every row gets
a generator output; under the faithful assumptions that the generator
produces valid v4 strings and row saves succeed, every persisted
identifier is a valid v4 UUID. -/
theorem c2_identifier_reconciliation (env : Env) (d : Dataset)
    (tm : List (String × String)) (path : String) (c : Nat)
    (hfresh : ∀ n, is_valid_uuid (env.fresh n) = true)
    (hsave : ∀ r, env.saveOk r = true)
    (hcols : missingCol tm (env.hub.readCsv path) = none) :
    c2Prop env d tm path c := by
  have hrecs : (processFile env d tm path c).1 = fileRecords env d tm path c := by
    simp [processFile, hcols, saveRows_all env hsave]
  constructor
  · rw [hrecs, fileRecords_length]
  · intro i hi
    rw [hrecs]
    have hlen_ids : (fileIds env (env.hub.readCsv path) c).length =
        (env.hub.readCsv path).rows.length := fileIds_length env _ c
    have hfr : fileRecords env d tm path c =
        mkRecords d (basename path) tm (fileIds env (env.hub.readCsv path) c)
          (env.hub.readCsv path).rows := rfl
    have hget := mkRecords_getD d (basename path) tm
      (fileIds env (env.hub.readCsv path) c) (env.hub.readCsv path).rows i
      (by rw [hlen_ids]; exact hi) hi
    rw [hfr, hget]
    dsimp only
    by_cases hid : "id" ∈ (env.hub.readCsv path).columns
    · have hfi : fileIds env (env.hub.readCsv path) c =
          reconcileIds env ((env.hub.readCsv path).rows.map (fun r => cell r "id")) c := by
        simp [fileIds, hid]
      have hmap : ((env.hub.readCsv path).rows.map (fun r => cell r "id")).getD i "" =
          cell ((env.hub.readCsv path).rows.getD i []) "id" :=
        listGetDMap (fun r => cell r "id") "" [] _ i hi
      have hrc := reconcileIds_getD env
        ((env.hub.readCsv path).rows.map (fun r => cell r "id")) c i
        (by rw [List.length_map]; exact hi)
      rw [hmap] at hrc
      rw [hfi]
      refine ⟨?_, fun _ => ⟨hrc.1, hrc.2⟩, fun hnid => absurd hid hnid⟩
      cases hvv : is_valid_uuid (cell ((env.hub.readCsv path).rows.getD i []) "id") with
      | true => rw [hrc.1 hvv]; exact hvv
      | false =>
        obtain ⟨j, hj⟩ := hrc.2 hvv
        rw [hj]
        exact hfresh j
    · have hfi : fileIds env (env.hub.readCsv path) c =
          freshIds env (env.hub.readCsv path).rows.length c := by
        simp [fileIds, hid]
      have hg := freshIds_getD env (env.hub.readCsv path).rows.length c i hi
      rw [hfi, hg]
      exact ⟨hfresh (c + i), fun hmem => absurd hmem hid, fun _ => ⟨c + i, rfl⟩⟩

/-- Witness for C2 at the concrete fixture. -/
theorem c2_witness : c2Prop envC dC tmC "/tmp/train.csv" 0 :=
  c2_identifier_reconciliation envC dC tmC "/tmp/train.csv" 0
    (fun _ => rfl) (fun _ => rfl) (by decide)

/-- C3. A file whose columns omit a required source column fails with the
ValueError whose message embeds the missing column and the file base
name, before any row of that file is persisted. -/
theorem c3_missing_column (env : Env) (d : Dataset) (tm : List (String × String))
    (path : String) (c : Nat) (col : String)
    (hcol : missingCol tm (env.hub.readCsv path) = some col) :
    c3Prop env d tm path c col := by
  refine ⟨?_, ?_, ?_⟩
  · simp [processFile, hcol]
  · exact ⟨("Column " ++ sq).data,
      (sq ++ " does not exist in the dataset for " ++ basename path).data,
      by simp [missingColMsg, string_data_append, List.append_assoc]⟩
  · exact ⟨(("Column " ++ sq) ++ col ++ (sq ++ " does not exist in the dataset for ")).data,
      [],
      by simp [missingColMsg, string_data_append, List.append_assoc]⟩

/-- Witness for C3 at the concrete fixture missing the response column. -/
theorem c3_witness : c3Prop envMissingC dC tmC "/tmp/train.csv" 0 "response" :=
  c3_missing_column envMissingC dC tmC "/tmp/train.csv" 0 "response" (by decide)

theorem isEmpty_false_of_ne_nil {α : Type} (l : List α) (h : l ≠ []) :
    l.isEmpty = false := by
  cases l with
  | nil => exact absurd rfl h
  | cons a t => rfl

/-- C4. Dataset resolution without an explicit reference: a just-created
workflow fails with the no-dataset-available ValueError (translated to a
400 envelope); an existing workflow without a bound dataset fails with
the no-dataset-associated ValueError; an existing workflow with a first
bound dataset uses it, ingesting only when it is not cached. -/
theorem c4_no_explicit_reference (env : Env) (st : Store) (task_type : String)
    (task_mapping : List (String × String)) (workflow_id : Nat) :
    c4Prop env st task_type task_mapping workflow_id := by
  refine ⟨?_, rfl, ?_, ?_⟩
  · simp [resolveDataset, pyTruthy]
  · intro hnone
    simp [resolveDataset, pyTruthy, hnone]
  · intro d0 hfind
    constructor
    · intro hc
      simp [resolveDataset, pyTruthy, hfind, hc]
    · intro hc
      simp [resolveDataset, pyTruthy, hfind, hc]

/-- Witness for C4: all three decision rows at concrete stores. -/
theorem c4_witness :
    resolveDataset envC stC none "classification" tmC 1 true =
      (stC, CacheOutcome.err (PyError.valueError "No dataset available.")) ∧
    resolveDataset envC stEmptyDsC none "classification" tmC 1 false =
      (stEmptyDsC,
        CacheOutcome.err (PyError.valueError "No dataset associated with the workflow.")) ∧
    resolveDataset envC stCachedC none "classification" tmC 1 false =
      (stCachedC, CacheOutcome.ok dCachedC) :=
  ⟨(c4_no_explicit_reference envC stC "classification" tmC 1).1,
    (c4_no_explicit_reference envC stEmptyDsC "classification" tmC 1).2.2.1 (by decide),
    ((c4_no_explicit_reference envC stCachedC "classification" tmC 1).2.2.2 dCachedC
      (by decide)).1 rfl⟩

/-- C5. A dispatch run whose resolved dataset is already cached succeeds
with that dataset and workflow, leaves the whole store unchanged, and
does so for every hub, so no remote download and no row insertion can be
observed; this covers both the implicit and the explicit-reference call
forms. -/
theorem c5_second_invocation_noop (env : Env) (st : Store) (user_id task_type : String)
    (wid : Nat) (d : Dataset)
    (htm : env.getTaskMapping task_type ≠ [])
    (hfind : findWorkflow st user_id task_type = some wid)
    (hd : st.datasets.find? (fun x => x.workflow_id == wid) = some d)
    (hdt : d.type = task_type)
    (hcached : d.is_locally_cached = true) :
    c5Prop env st user_id task_type wid d := by
  have hne : (env.getTaskMapping task_type).isEmpty = false :=
    isEmpty_false_of_ne_nil _ htm
  constructor
  · simp [cacheDispatch, hne, hfind, resolveDataset, pyTruthy, hd, hcached]
  · intro s hs hsplit
    have hts : pyTruthy (some s) = true := pyTruthy_some s hs
    have hlen : ((pySplitSlash s).length == 2) = true := by
      rw [hsplit]
      rfl
    have hpd : (d.workflow_id == wid) = true := by
      simpa using List.find?_some hd
    have hq : (d.type == task_type && d.workflow_id == wid) = true := by
      rw [hdt, hpd]
      simp
    have hfind2 : st.datasets.find?
        (fun x => x.type == task_type && x.workflow_id == wid) = some d :=
      listFindStrengthen (fun x => x.workflow_id == wid)
        (fun x => x.type == task_type && x.workflow_id == wid) st.datasets d hd hq
        (fun x hx => ((Bool.and_eq_true _ _).mp hx).2)
    simp [cacheDispatch, hne, hfind, resolveDataset, hts, hlen, hfind2, hcached]

/-- Witness for C5 at the concrete cached store. -/
theorem c5_witness : c5Prop envC stCachedC "u1" "classification" 1 dCachedC :=
  c5_second_invocation_noop envC stCachedC "u1" "classification" 1 dCachedC
    (by decide) (by decide) (by decide) rfl rfl

/-- C6 (amended). An unknown task type (empty registry result) makes the
dispatch fail with the 400 envelope carrying the message of line 130,
with the store returned unchanged, for every store and hub: the check
precedes any network or store effect because the Workflows queryset of
line 113 is lazy. -/
theorem c6_unknown_task_type (env : Env) (st : Store) (user_id : String)
    (dataset : Option String) (task_type : String)
    (h : env.getTaskMapping task_type = []) :
    c6Prop env st user_id dataset task_type := by
  simp [c6Prop, cacheDispatch, h]

/-- Witness for the amended C6 at the concrete fixture. -/
theorem c6_witness : c6Prop envC stC "u1" none "summarization" :=
  c6_unknown_task_type envC stC "u1" none "summarization" (by decide)

/-- Counterexample for C6 as stated: the 400 message produced for an
unknown task type is the line-130 text, which does not contain the
phrase claimed by the spec. -/
theorem c6_counterexample :
    (cacheDispatch envC stC "u1" none "summarization").1 =
      DispatchResult.jsonError 400 "Please give a valid task type." ∧
    ¬ listInfix ("unknown task type".data) ("Please give a valid task type.".data) := by
  constructor
  · decide
  · intro hinf
    have hb := listInfix_implies _ _ hinf
    have hfalse : listIsInfixB ("unknown task type".data)
        ("Please give a valid task type.".data) = false := by decide
    rw [hfalse] at hb
    cases hb

/-- C7. The workflow scan returns the first workflow, in creation order,
whose first bound dataset has the requested task type; a successful scan
creates no workflow, and a failed scan makes dispatch create exactly one
Training workflow named after the task type. -/
theorem c7_workflow_binding (env : Env) (st : Store) (user_id : String)
    (dataset : Option String) (task_type : String) :
    c7Prop env st user_id dataset task_type := by
  constructor
  · intro wid hw
    constructor
    · cases hf : (userWorkflows st user_id).find? (wfMatches st task_type) with
      | none =>
        unfold findWorkflow at hw
        rw [hf] at hw
        simp at hw
      | some w =>
        unfold findWorkflow at hw
        rw [hf] at hw
        simp at hw
        obtain ⟨l₁, l₂, hl, h1, h2⟩ := listFindSplit _ _ _ hf
        exact ⟨w, l₁, l₂, hl, hw, h2, h1⟩
    · intro htm
      have hne : (env.getTaskMapping task_type).isEmpty = false :=
        isEmpty_false_of_ne_nil _ htm
      simp [cacheDispatch, hne, hw, resolveDataset_workflows]
  · intro hnone htm
    have hne : (env.getTaskMapping task_type).isEmpty = false :=
      isEmpty_false_of_ne_nil _ htm
    simp [cacheDispatch, hne, hnone, resolveDataset_workflows]

/-- Witness for C7: the scan finds the matching workflow of the fixture,
and on a store without workflows dispatch appends the new Training
workflow. -/
theorem c7_witness :
    (∃ w l₁ l₂, userWorkflows stC "u1" = l₁ ++ w :: l₂ ∧ w.workflow_id = 1 ∧
      wfMatches stC "classification" w = true ∧
      ∀ w2 ∈ l₁, wfMatches stC "classification" w2 = false) ∧
    (cacheDispatch envC stNoWfC "u1" (some "user1/data") "classification").2.workflows =
      stNoWfC.workflows ++ [{ workflow_id := stNoWfC.nextWorkflowId,
                              user_id := "u1",
                              type := "Training",
                              workflow_name := "training_" ++ "classification" }] :=
  ⟨((c7_workflow_binding envC stC "u1" none "classification").1 1 (by decide)).1,
    (c7_workflow_binding envC stNoWfC "u1" (some "user1/data") "classification").2
      (by decide) (by decide)⟩

/-- C8 (amended). Identity resolution fails with 401 exactly when the
token is absent or empty, when uuid.UUID rejects it (any version is
accepted, not only v4), or when the role is absent or empty; a failing
call leaves the user store and the identity cache unchanged. -/
theorem c8_identity_gate (st : AuthState) (user_id role : Option String) :
    c8Prop st user_id role := by
  unfold c8Prop userIdDispatch
  cases h1 : pyTruthy user_id with
  | false => simp [h1, AuthResult.isUnauthorized]
  | true =>
    cases h2 : pyUUIDParses (user_id.getD "") with
    | false => simp [h1, h2, AuthResult.isUnauthorized]
    | true =>
      cases h3 : pyTruthy role with
      | false => simp [h1, h2, h3, AuthResult.isUnauthorized]
      | true => simp [h1, h2, h3, AuthResult.isUnauthorized]

/-- Witness for the amended C8 at a concrete call. -/
theorem c8_witness : c8Prop { users := [], userCache := [] } none (some "admin") :=
  c8_identity_gate { users := [], userCache := [] } none (some "admin")

/-- Counterexample for C8 as stated: a canonical version-1 UUID token is
not a valid v4 UUID, yet the dispatch accepts it (no 401), because
uuid.UUID is called without a version argument. -/
theorem c8_counterexample :
    pyTruthy (some "00000000-0000-1000-8000-000000000000") = true ∧
    is_valid_uuid "00000000-0000-1000-8000-000000000000" = false ∧
    (userIdDispatch { users := [], userCache := [] }
      (some "00000000-0000-1000-8000-000000000000")
      (some "admin")).1.isUnauthorized = false :=
  ⟨by decide, by decide, by decide⟩

/-- C9. An explicit reference that does not split into exactly two
slash-separated parts makes dispatch answer the 400 envelope carrying
the Python unpacking error, for every hub and with the dataset and row
tables unchanged: the split of line 162 runs before any remote call and
before any dataset lookup or creation for the reference. -/
theorem c9_malformed_reference (env : Env) (st : Store) (user_id task_type s : String)
    (htm : env.getTaskMapping task_type ≠ []) (hs : s ≠ "")
    (hsplit : (pySplitSlash s).length ≠ 2) :
    c9Prop env st user_id task_type s := by
  have hne := isEmpty_false_of_ne_nil _ htm
  have hts : pyTruthy (some s) = true := pyTruthy_some s hs
  have hlen : ((pySplitSlash s).length == 2) = false := by
    simpa using hsplit
  cases hf : findWorkflow st user_id task_type with
  | some wid =>
    refine ⟨?_, ?_, ?_⟩ <;>
      simp [cacheDispatch, hne, hf, resolveDataset, hts, hlen, errToResponse]
  | none =>
    refine ⟨?_, ?_, ?_⟩ <;>
      simp [cacheDispatch, hne, hf, resolveDataset, hts, hlen, errToResponse]

/-- Witness for C9 at a three-part reference. -/
theorem c9_witness : c9Prop envC stC "u1" "classification" "a/b/c" :=
  c9_malformed_reference envC stC "u1" "classification" "a/b/c"
    (by decide) (by decide) (by decide)

/-- C10. With an explicit reference and an existing uncached dataset
record for the task and workflow, dispatch runs the ingestion against
that record using the supplied reference, and a successful ingestion
modifies only the cached flag and the content hash of the record. -/
theorem c10_existing_record_frame (env : Env) (st : Store)
    (user_id task_type s : String) (wid : Nat) (d : Dataset)
    (htm : env.getTaskMapping task_type ≠ [])
    (hfind : findWorkflow st user_id task_type = some wid)
    (hs : s ≠ "")
    (hsplit : (pySplitSlash s).length = 2)
    (hd : st.datasets.find? (fun x => x.type == task_type && x.workflow_id == wid) = some d)
    (huncached : d.is_locally_cached = false) :
    c10Prop env st user_id task_type s wid d := by
  have hne := isEmpty_false_of_ne_nil _ htm
  have hts := pyTruthy_some s hs
  have hlen : ((pySplitSlash s).length == 2) = true := by
    rw [hsplit]
    rfl
  constructor
  · simp [cacheDispatch, hne, hfind, resolveDataset, hts, hlen, hd, huncached]
  · intro d2 hok
    obtain ⟨hshape, _⟩ := cache_dataset_ok_spec env d (env.getTaskMapping task_type) s d2 hok
    subst hshape
    exact ⟨rfl, rfl, rfl, rfl, rfl, rfl, rfl⟩

/-- Witness for C10 at the concrete fixture. -/
theorem c10_witness : c10Prop envC stC "u1" "classification" "user1/data" 1 dC :=
  c10_existing_record_frame envC stC "u1" "classification" "user1/data" 1 dC
    (by decide) (by decide) (by decide) (by decide) (by decide) rfl

end Autotune
